import Mathlib

/-!
Verification development for the AnalytiQ data-hub page
(`src/pages/data_hub.py`).

The page is presentation glue: it fetches `Dataset` records (name, filepath)
from a database, loads the selected dataset into a dataframe with a row
limit, builds per-column equality filters in the sidebar, applies them, and
renders summary statistics and charts computed from the filtered table.

The embedding below models dataframes as lists of rows of cells with a list
of column names.  Helpers that live in `data_utils` / `data_analysis`
(absent from the sources) are modelled from the spec and say so in their
doc comments; everything else is translated from `data_hub.py`.
-/

namespace AnalytiQ

/-- A cell of a dataframe: either a numeric value or a string value. -/
inductive Cell
  | num (x : Int)
  | str (s : String)
deriving DecidableEq, Repr

/-- A dataframe: named columns and rows of cells. -/
structure DataFrame where
  cols : List String
  rows : List (List Cell)
deriving DecidableEq, Repr

/-- A Dataset record as stored in the database: `name` and `filepath`
columns (spec section 3 and `models.Dataset`). -/
structure Dataset where
  name : String
  filepath : String
deriving DecidableEq, Repr

/-- The cell of `row` in the column named `c` of dataframe `df`, if any. -/
def cellInRow (df : DataFrame) (row : List Cell) (c : String) : Option Cell :=
  (df.cols.indexOf? c).bind fun i => row.get? i

/-- Unique values of a list in order of first appearance, as pandas
`Series.unique` returns them. -/
def uniqueList (l : List Cell) : List Cell :=
  l.foldl (fun acc a => if a ∈ acc then acc else acc ++ [a]) []

/-- The values of column `c` of `df`, row by row. -/
def columnValues (df : DataFrame) (c : String) : List Cell :=
  df.rows.filterMap fun r => cellInRow df r c

/-- The unique values of column `c` of `df` (`selected_data[column].unique()`). -/
def uniqueVals (df : DataFrame) (c : String) : List Cell :=
  uniqueList (columnValues df c)

/-- A sidebar filter dictionary: each column name maps to `none` (no filter)
or to a single required value. -/
abbrev Filters : Type := List (String × Option Cell)

/-- Whether a row passes every non-`none` filter by cell equality. -/
def rowPasses (df : DataFrame) (filters : Filters) (row : List Cell) : Bool :=
  List.all filters fun p =>
    match p.2 with
    | none => true
    | some v => cellInRow df row p.1 == some v

/-- Modelled from the spec: `apply_filters` lives in `data_utils`, which is
not among the sources.  The spec defines the filtered view as "the subset of
the loaded table matching the user-chosen per-column equality filters",
where the table is "filtered by an dictionary mapping column name to a
single allowed value (or no filter)". -/
def apply_filters (df : DataFrame) (filters : Filters) : DataFrame :=
  ⟨df.cols, df.rows.filter (rowPasses df filters)⟩

/-- Modelled from the spec: `load_data` lives in `data_utils`, which is not
among the sources.  The spec describes it as "a file-loading utility that
reads a path into a tabular structure with an optional row limit", the
working data being "loaded from the dataset's file path, optionally
truncated to a row limit".  `fs` stands for the file system, mapping a path
to the tabular contents of the file stored there. -/
def load_data (fs : String → DataFrame) (path : String) (limit : Nat) : DataFrame :=
  ⟨(fs path).cols, (fs path).rows.take limit⟩

/-- Options of the sidebar filter selectbox for column `c`:
`[None] + list(unique_vals)` (data_hub.py line 168). -/
def filterOptions (df : DataFrame) (c : String) : List (Option Cell) :=
  none :: (uniqueVals df c).map some

/-- A streamlit selectbox: returns the option at the user-chosen index, the
first option when the user has not interacted (`none` choice), and `none`
when the option list is empty. -/
def selectbox {α : Type} (options : List α) (choice : Option Nat) : Option α :=
  options.get? (choice.getD 0)

/-- A streamlit multiselect: the options at the user-chosen indices; the
default selection is empty. -/
def multiselect {α : Type} (options : List α) (choices : List Nat) : List α :=
  choices.filterMap options.get?

/-- A streamlit number input with a minimum: entering nothing yields the
default, and the widget never returns a value below the minimum. -/
def numberInput (minValue dflt : Nat) (entry : Option Nat) : Nat :=
  match entry with
  | none => dflt
  | some v => max minValue v

/-- The filter value the sidebar selectbox for column `c` yields, given the
user's chosen index into its options; index 0 (the default) is `None`. -/
def chosenFilterVal (df : DataFrame) (fc : String → Option Nat) (c : String) :
    Option Cell :=
  (filterOptions df c).getD ((fc c).getD 0) none

/-- The sidebar filter dictionary built by `main` (data_hub.py lines
164-168): one entry per column of the loaded table whose number of unique
values is less than 100, holding the value chosen in that column's
selectbox. -/
def buildFilters (df : DataFrame) (fc : String → Option Nat) : Filters :=
  df.cols.filterMap fun c =>
    if (uniqueVals df c).length < 100 then some (c, chosenFilterVal df fc c)
    else none

/-- Whether the dtype of column `c` of `df` is numeric
(`pd.api.types.is_numeric_dtype(df[column])`): every cell of the column is
a numeric value. -/
def is_numeric_dtype (df : DataFrame) (c : String) : Bool :=
  (columnValues df c).all fun x =>
    match x with
    | .num _ => true
    | .str _ => false

/-- A plotly chart as constructed by `data_hub.py`. -/
inductive Chart
  | histogramBox (x : String) (nbins : Nat) (title : String)
  | histogramColor (x : String) (color : String) (title : String)
deriving DecidableEq, Repr

/-- A call into one of the `data_analysis` display helpers (their bodies
are not among the sources; the call records exactly the arguments passed). -/
inductive AnalysisCall
  | univariate (df : DataFrame) (c : String)
  | bivariate (df : DataFrame) (x y : String)
  | multivariate (df : DataFrame) (cs : List String)
  | correlation (df : DataFrame)
deriving DecidableEq, Repr

/-- The dataframe an analysis display helper is invoked on. -/
def AnalysisCall.df : AnalysisCall → DataFrame
  | .univariate df _ => df
  | .bivariate df _ _ => df
  | .multivariate df _ => df
  | .correlation df => df

/-- One streamlit render action performed by the page. -/
inductive RenderItem
  | header (s : String)
  | subheader (s : String)
  | write (s : String)
  | writeKV (label : String) (value : String)
  | markdown (s : String)
  | metric (label : String) (value : Int)
  | selectW (label : String) (options : List String)
  | multiselectW (label : String) (options : List String)
  | chart (c : Chart)
  | analysisCall (a : AnalysisCall)
  | dataframeView (df : DataFrame)
deriving DecidableEq, Repr

/-- The charts among a list of render items. -/
def chartsOf (items : List RenderItem) : List Chart :=
  items.filterMap fun i =>
    match i with
    | .chart c => some c
    | _ => none

/-- Whether a render item offers a column selection or performs an
analysis: a selectbox, a multiselect, or a call into an analysis helper. -/
def isAnalysisWidget : RenderItem → Bool
  | .selectW _ _ => true
  | .multiselectW _ _ => true
  | .analysisCall _ => true
  | _ => false

/-- Whether a render item is a call into an analysis display helper. -/
def isAnalysisCallItem : RenderItem → Bool
  | .analysisCall _ => true
  | _ => false

/-- Modelled from the spec: the column-level summary values that
`column_summary` (in the absent `data_analysis` module) returns and
`display_column_summary` writes out, one display string per key it reads. -/
structure ColSummary where
  dataType : String
  uniqueValues : String
  missingValues : String
  mean : String
  median : String
  mode : String
  std : String
  min : String
  max : String
deriving DecidableEq, Repr

/-- The render actions of `display_column_summary` (data_hub.py lines
35-57): the nine summary writes, the distribution subheader, and one
histogram — with a box-plot marginal and 30 bins when the column dtype is
numeric, colored by the column otherwise.  `cs` stands for the absent
`column_summary` helper. -/
def display_column_summary (cs : DataFrame → String → ColSummary)
    (df : DataFrame) (column : String) : List RenderItem :=
  let s := cs df column
  [.writeKV "Data Type:" s.dataType,
   .writeKV "Unique Values:" s.uniqueValues,
   .writeKV "Missing Values:" s.missingValues,
   .writeKV "Mean:" s.mean,
   .writeKV "Median:" s.median,
   .writeKV "Mode:" s.mode,
   .writeKV "Standard Deviation:" s.std,
   .writeKV "Min:" s.min,
   .writeKV "Max:" s.max,
   .subheader (String.append "Distribution of " column),
   .chart (if is_numeric_dtype df column then
       Chart.histogramBox column 30 (String.append "Distribution of " column)
     else
       Chart.histogramColor column column
         (String.append "Distribution of " column))]

/-- Outcome of the module-level `import plotly.express` attempt
(data_hub.py lines 9-15): it either succeeds or raises
`ModuleNotFoundError` (the only exception the `except` clause catches). -/
inductive ImportOutcome
  | ok
  | moduleNotFoundError
deriving DecidableEq, Repr

/-- A module-setup action the import fallback can perform. -/
inductive SetupAction
  | importPlotlyExpress
  | pipInstall (pkg : String)
deriving DecidableEq, Repr

/-- The actions the import-time fallback performs, by the outcome of the
first `import plotly.express`: on success nothing more happens; on
`ModuleNotFoundError` it runs `pip install plotly` in a subprocess and
imports `plotly.express` again (data_hub.py lines 9-15). -/
def plotlyImportFallback : ImportOutcome → List SetupAction
  | .ok => [.importPlotlyExpress]
  | .moduleNotFoundError =>
      [.importPlotlyExpress, .pipInstall "plotly", .importPlotlyExpress]

/-- Whether a setup action is a package installation. -/
def SetupAction.isInstall : SetupAction → Bool
  | .pipInstall _ => true
  | .importPlotlyExpress => false

/-- Modelled from the spec: the overall summary that `generate_summary`
(in the absent `data_utils` / `data_analysis` modules) returns; its keys
are the ones `display_summary_tiles` reads. -/
structure Summary where
  numberOfRows : Int
  numberOfColumns : Int
  missingValues : Int
  duplicateRows : Int
  memoryUsageMB : Int
deriving DecidableEq, Repr

/-- The five metric tiles of `display_summary_tiles` (data_hub.py lines
25-32), as label/value pairs in render order. -/
def display_summary_tiles (s : Summary) : List (String × Int) :=
  [("Number of Rows", s.numberOfRows),
   ("Number of Columns", s.numberOfColumns),
   ("Missing Values", s.missingValues),
   ("Duplicate Rows", s.duplicateRows),
   ("Memory Usage (MB)", s.memoryUsageMB)]

/-- Everything the user enters through the page's widgets: chosen indices
into the various selectboxes (`none` leaves a widget at its default), the
row-limit entry, and the multiselect choice. -/
structure UserInput where
  datasetChoice : Option Nat
  limitValue : Option Nat
  filterChoice : String → Option Nat
  summaryColumnChoice : Option Nat
  analysisChoice : Option Nat
  uniChoice : Option Nat
  biXChoice : Option Nat
  biYChoice : Option Nat
  multiChoice : List Nat

/-- The render actions of `handle_data_summary_tab` (data_hub.py lines
60-81): the header, the summary tiles, the detailed-statistics dataframe,
the column selectbox, and — when a column is selected — its column-level
summary.  `gs`, `ds`, `cs` stand for the absent `generate_summary`,
`detailed_statistics` and `column_summary` helpers. -/
def handle_data_summary_tab (gs : DataFrame → Summary)
    (ds : DataFrame → DataFrame) (cs : DataFrame → String → ColSummary)
    (df : DataFrame) (ui : UserInput) : List RenderItem :=
  [RenderItem.header "Data Summary"] ++
  (display_summary_tiles (gs df)).map (fun p => RenderItem.metric p.1 p.2) ++
  [RenderItem.header "Detailed Analysis",
   RenderItem.subheader "Detailed Statistics",
   RenderItem.dataframeView (ds df),
   RenderItem.subheader "Column-Level Summary",
   RenderItem.selectW "Select Column" df.cols] ++
  (match selectbox df.cols ui.summaryColumnChoice with
   | none => []
   | some c => if c ≠ "" then display_column_summary cs df c else [])

/-- The five analysis types offered by the analysis tab's selectbox. -/
inductive AnalysisOption
  | univariate
  | bivariate
  | multivariate
  | correlation
  | crossTabulation
deriving DecidableEq, Repr

/-- The analysis options in the order the selectbox lists them
(data_hub.py lines 89-98). -/
def analysisOptions : List AnalysisOption :=
  [.univariate, .bivariate, .multivariate, .correlation, .crossTabulation]

/-- The label of an analysis option as shown in the selectbox. -/
def analysisOptionLabel : AnalysisOption → String
  | .univariate => "Univariate Analysis"
  | .bivariate => "Bivariate Analysis"
  | .multivariate => "Multivariate Analysis"
  | .correlation => "Correlation Analysis"
  | .crossTabulation => "Cross Tabulation"

/-- The description shown for an analysis option (data_hub.py lines
101-107). -/
def analysisDescription : AnalysisOption → String
  | .univariate =>
      "Analyze the distribution and summary statistics of individual variables."
  | .bivariate => "Analyze the relationship between two variables."
  | .multivariate => "Analyze relationships involving more than two variables."
  | .correlation => "Analyze correlations between numerical variables."
  | .crossTabulation => "Analyze relationships between categorical variables."

/-- The introductory text of the analysis tab (data_hub.py line 86). -/
def analysisIntro : String :=
  String.append "This tab will host various analysis tools, such as "
    (String.append "univariate, bivariate, and multivariate analysis, "
      "along with other advanced data analysis features.")

/-- The option-specific render actions of the analysis tab's dispatch
(data_hub.py lines 113-134): univariate, bivariate and multivariate show
column selectors and call their display helper once columns are chosen;
correlation calls its helper directly; Cross Tabulation has no branch. -/
def analysisDispatch (df : DataFrame) (ui : UserInput) :
    AnalysisOption → List RenderItem
  | .univariate =>
      RenderItem.selectW "Select Column for Univariate Analysis" df.cols ::
        (match selectbox df.cols ui.uniChoice with
         | none => []
         | some c =>
             if c ≠ "" then [RenderItem.analysisCall (.univariate df c)] else [])
  | .bivariate =>
      [RenderItem.selectW "Select X-axis Column" df.cols,
       RenderItem.selectW "Select Y-axis Column" df.cols] ++
        (match selectbox df.cols ui.biXChoice, selectbox df.cols ui.biYChoice with
         | some x, some y =>
             if x ≠ "" ∧ y ≠ "" then
               [RenderItem.analysisCall (.bivariate df x y)]
             else []
         | _, _ => [])
  | .multivariate =>
      RenderItem.multiselectW "Select Columns for Multivariate Analysis" df.cols ::
        (if multiselect df.cols ui.multiChoice ≠ [] then
           [RenderItem.analysisCall (.multivariate df (multiselect df.cols ui.multiChoice))]
         else [])
  | .correlation => [RenderItem.analysisCall (.correlation df)]
  | .crossTabulation => []

/-- The render actions of `handle_data_analysis_tab` (data_hub.py lines
83-134): header and intro, the analysis-type selectbox, the chosen
option's subheader, description and separator, then the option's
dispatch. -/
def handle_data_analysis_tab (df : DataFrame) (ui : UserInput) :
    List RenderItem :=
  match selectbox analysisOptions ui.analysisChoice with
  | none =>
      [RenderItem.header "Data Analysis", RenderItem.write analysisIntro,
       RenderItem.selectW "Select an Analysis Type"
         (analysisOptions.map analysisOptionLabel)]
  | some opt =>
      [RenderItem.header "Data Analysis", RenderItem.write analysisIntro,
       RenderItem.selectW "Select an Analysis Type"
         (analysisOptions.map analysisOptionLabel),
       RenderItem.subheader (analysisOptionLabel opt),
       RenderItem.write (String.append "Description: " (analysisDescription opt)),
       RenderItem.markdown "---"] ++ analysisDispatch df ui opt

/-- The message `main` writes when the database holds no Dataset records
(data_hub.py line 144). -/
def noDatasetsMsg : String :=
  "No datasets available. Please upload a dataset first."

/-- The database query
`db.query(Dataset).filter(Dataset.name == dataset_name).first()`
(data_hub.py line 156): the first Dataset record whose name equals the
selection. -/
def queryFirstByName (db : List Dataset) (nm : String) : Option Dataset :=
  db.find? fun d => d.name == nm

/-- Everything `main` renders once a dataset is selected and loaded. -/
structure PageRender where
  datasetName : String
  dataLimit : Nat
  loaded : DataFrame
  filters : Filters
  filtered : DataFrame
  summaryTab : List RenderItem
  analysisTab : List RenderItem
  viewData : DataFrame
deriving DecidableEq, Repr

/-- The outcome of a run of `main`: the no-datasets message, a blank page
(falsy dataset name), a crash (`.filepath` on `None`), or a rendered
page. -/
inductive MainResult
  | message (s : String)
  | blank
  | crash (err : String)
  | page (r : PageRender)
deriving DecidableEq, Repr

/-- The `main` function of data_hub.py (lines 136-189): fetch the Dataset
records; if there are none, write the no-datasets message and return;
otherwise offer the dataset selectbox and row-limit input, query the first
record matching the selected name, load its file with the row limit, build
the sidebar filters over the loaded table, apply them, and render the
summary tab, the analysis tab and the data view from the filtered table.
`fs` stands for the file system behind `load_data`; `gs`, `ds`, `cs` for
the absent statistics helpers. -/
def main (db : List Dataset) (fs : String → DataFrame)
    (gs : DataFrame → Summary) (ds : DataFrame → DataFrame)
    (cs : DataFrame → String → ColSummary) (ui : UserInput) : MainResult :=
  if db = [] then .message noDatasetsMsg
  else
    match selectbox (db.map Dataset.name) ui.datasetChoice with
    | none => .blank
    | some nm =>
      if nm = "" then .blank
      else
        match queryFirstByName db nm with
        | none => .crash "AttributeError"
        | some sel =>
          let data_limit := numberInput 1 1000 ui.limitValue
          let selected_data := load_data fs sel.filepath data_limit
          let filters := buildFilters selected_data ui.filterChoice
          let filtered := apply_filters selected_data filters
          .page
            { datasetName := nm
              dataLimit := data_limit
              loaded := selected_data
              filters := filters
              filtered := filtered
              summaryTab := handle_data_summary_tab gs ds cs filtered ui
              analysisTab := handle_data_analysis_tab filtered ui
              viewData := filtered }

/-- The page of a `main` outcome, defaulting to an empty page. -/
def pageOf : MainResult → PageRender
  | .page r => r
  | _ => ⟨"", 0, ⟨[], []⟩, [], ⟨[], []⟩, [], [], ⟨[], []⟩⟩

/-- The `selected_data` local of `main` (data_hub.py line 160): the
dataset's file loaded with the row limit. -/
def selectedDataOf (fs : String → DataFrame) (sel : Dataset) (ui : UserInput) :
    DataFrame :=
  load_data fs sel.filepath (numberInput 1 1000 ui.limitValue)

/-- The `filters` local of `main` (data_hub.py lines 164-168). -/
def filtersOf (fs : String → DataFrame) (sel : Dataset) (ui : UserInput) :
    Filters :=
  buildFilters (selectedDataOf fs sel ui) ui.filterChoice

/-- The `filtered_data` local of `main` (data_hub.py line 171). -/
def filteredDataOf (fs : String → DataFrame) (sel : Dataset) (ui : UserInput) :
    DataFrame :=
  apply_filters (selectedDataOf fs sel ui) (filtersOf fs sel ui)

/-- The `filtered_data` computed by `main` from an already-loaded table
(data_hub.py lines 164-171). -/
def filteredOf (data : DataFrame) (ui : UserInput) : DataFrame :=
  apply_filters data (buildFilters data ui.filterChoice)

/-- `display_column_summary` in the embedding where external calls may
raise: the `column_summary` statistics call (`csE`) runs first, then the
histogram construction and rendering (`plotE`, standing for
`px.histogram` / `st.plotly_chart`); an error raised by either is the
result (data_hub.py lines 35-57). -/
def display_column_summaryE
    (csE : DataFrame → String → Except String ColSummary)
    (plotE : Chart → Except String Unit)
    (df : DataFrame) (column : String) : Except String (List RenderItem) :=
  match csE df column with
  | .error err => .error err
  | .ok s =>
    match plotE (if is_numeric_dtype df column then
        Chart.histogramBox column 30 (String.append "Distribution of " column)
      else
        Chart.histogramColor column column
          (String.append "Distribution of " column)) with
    | .error err => .error err
    | .ok _ => .ok (display_column_summary (fun _ _ => s) df column)

/-- `handle_data_summary_tab` in the embedding where external calls may
raise: `generate_summary`, then `detailed_statistics`, then the selected
column's summary and plot; an error raised by any of them is the result
(data_hub.py lines 60-81). -/
def handle_data_summary_tabE (gsE : DataFrame → Except String Summary)
    (dsE : DataFrame → Except String DataFrame)
    (csE : DataFrame → String → Except String ColSummary)
    (plotE : Chart → Except String Unit)
    (df : DataFrame) (ui : UserInput) : Except String (List RenderItem) :=
  match gsE df with
  | .error err => .error err
  | .ok summary =>
    match dsE df with
    | .error err => .error err
    | .ok stats =>
      let base :=
        [RenderItem.header "Data Summary"] ++
        (display_summary_tiles summary).map
          (fun p => RenderItem.metric p.1 p.2) ++
        [RenderItem.header "Detailed Analysis",
         RenderItem.subheader "Detailed Statistics",
         RenderItem.dataframeView stats,
         RenderItem.subheader "Column-Level Summary",
         RenderItem.selectW "Select Column" df.cols]
      match selectbox df.cols ui.summaryColumnChoice with
      | none => .ok base
      | some c =>
        if c ≠ "" then
          match display_column_summaryE csE plotE df c with
          | .error err => .error err
          | .ok colItems => .ok (base ++ colItems)
        else .ok base

/-- The analysis tab's dispatch in the embedding where the
`display_*_analysis` helpers (`anaE`) may raise: an error raised by the
invoked helper is the result (data_hub.py lines 113-134). -/
def analysisDispatchE (anaE : AnalysisCall → Except String Unit)
    (df : DataFrame) (ui : UserInput) :
    AnalysisOption → Except String (List RenderItem)
  | .univariate =>
      match selectbox df.cols ui.uniChoice with
      | none =>
          .ok [RenderItem.selectW "Select Column for Univariate Analysis" df.cols]
      | some c =>
        if c ≠ "" then
          match anaE (.univariate df c) with
          | .error err => .error err
          | .ok _ =>
              .ok [RenderItem.selectW "Select Column for Univariate Analysis"
                     df.cols,
                   RenderItem.analysisCall (.univariate df c)]
        else
          .ok [RenderItem.selectW "Select Column for Univariate Analysis" df.cols]
  | .bivariate =>
      match selectbox df.cols ui.biXChoice, selectbox df.cols ui.biYChoice with
      | some x, some y =>
        if x ≠ "" ∧ y ≠ "" then
          match anaE (.bivariate df x y) with
          | .error err => .error err
          | .ok _ =>
              .ok [RenderItem.selectW "Select X-axis Column" df.cols,
                   RenderItem.selectW "Select Y-axis Column" df.cols,
                   RenderItem.analysisCall (.bivariate df x y)]
        else
          .ok [RenderItem.selectW "Select X-axis Column" df.cols,
               RenderItem.selectW "Select Y-axis Column" df.cols]
      | _, _ =>
          .ok [RenderItem.selectW "Select X-axis Column" df.cols,
               RenderItem.selectW "Select Y-axis Column" df.cols]
  | .multivariate =>
      if multiselect df.cols ui.multiChoice ≠ [] then
        match anaE (.multivariate df (multiselect df.cols ui.multiChoice)) with
        | .error err => .error err
        | .ok _ =>
            .ok [RenderItem.multiselectW
                   "Select Columns for Multivariate Analysis" df.cols,
                 RenderItem.analysisCall
                   (.multivariate df (multiselect df.cols ui.multiChoice))]
      else
        .ok [RenderItem.multiselectW "Select Columns for Multivariate Analysis"
               df.cols]
  | .correlation =>
      match anaE (.correlation df) with
      | .error err => .error err
      | .ok _ => .ok [RenderItem.analysisCall (.correlation df)]
  | .crossTabulation => .ok []

/-- `handle_data_analysis_tab` in the embedding where the analysis display
helpers may raise: an error raised by the dispatched helper is the result
(data_hub.py lines 83-134). -/
def handle_data_analysis_tabE (anaE : AnalysisCall → Except String Unit)
    (df : DataFrame) (ui : UserInput) : Except String (List RenderItem) :=
  match selectbox analysisOptions ui.analysisChoice with
  | none =>
      .ok [RenderItem.header "Data Analysis", RenderItem.write analysisIntro,
           RenderItem.selectW "Select an Analysis Type"
             (analysisOptions.map analysisOptionLabel)]
  | some opt =>
      match analysisDispatchE anaE df ui opt with
      | .error err => .error err
      | .ok items =>
          .ok ([RenderItem.header "Data Analysis", RenderItem.write analysisIntro,
                RenderItem.selectW "Select an Analysis Type"
                  (analysisOptions.map analysisOptionLabel),
                RenderItem.subheader (analysisOptionLabel opt),
                RenderItem.write (String.append "Description: "
                  (analysisDescription opt)),
                RenderItem.markdown "---"] ++ items)

/-- The outcome of a run of `main` in the embedding where external calls
can fail. -/
inductive MainResultE
  | message (s : String)
  | blank
  | page (summaryTab analysisTab : List RenderItem) (filtered : DataFrame)
deriving DecidableEq, Repr

/-- The `main` function again, in an embedding where every external call —
`load_data` (`loadE`), the statistics helpers `generate_summary` (`gsE`),
`detailed_statistics` (`dsE`) and `column_summary` (`csE`), the plotting
call (`plotE`) and the analysis-tab display helpers (`anaE`) — may raise.
`main` and the tab handlers wrap none of them in a try/except, so any
error is the unchanged outcome. -/
def mainE (db : List Dataset)
    (loadE : String → Nat → Except String DataFrame)
    (gsE : DataFrame → Except String Summary)
    (dsE : DataFrame → Except String DataFrame)
    (csE : DataFrame → String → Except String ColSummary)
    (plotE : Chart → Except String Unit)
    (anaE : AnalysisCall → Except String Unit)
    (ui : UserInput) : Except String MainResultE :=
  if db = [] then .ok (.message noDatasetsMsg)
  else
    match selectbox (db.map Dataset.name) ui.datasetChoice with
    | none => .ok .blank
    | some nm =>
      if nm = "" then .ok .blank
      else
        match queryFirstByName db nm with
        | none => .error "AttributeError"
        | some sel =>
          match loadE sel.filepath (numberInput 1 1000 ui.limitValue) with
          | .error err => .error err
          | .ok data =>
            match handle_data_summary_tabE gsE dsE csE plotE
                (filteredOf data ui) ui with
            | .error err => .error err
            | .ok summaryItems =>
              match handle_data_analysis_tabE anaE (filteredOf data ui) ui with
              | .error err => .error err
              | .ok analysisItems =>
                  .ok (.page summaryItems analysisItems (filteredOf data ui))

/-- A one-record database used in concrete instantiations. -/
def exDb : List Dataset := [⟨"d", "p"⟩]

/-- A concrete file system with one two-row, one-column table. -/
def exFs : String → DataFrame :=
  fun _ => ⟨["a"], [[Cell.num 1], [Cell.num 2]]⟩

/-- A concrete stand-in for `generate_summary`. -/
def exGs : DataFrame → Summary := fun _ => ⟨0, 0, 0, 0, 0⟩

/-- A concrete stand-in for `detailed_statistics`. -/
def exDs : DataFrame → DataFrame := fun df => df

/-- A concrete stand-in for `column_summary`. -/
def exCs : DataFrame → String → ColSummary :=
  fun _ _ => ⟨"", "", "", "", "", "", "", "", ""⟩

/-- A concrete user input leaving every widget at its default except a
row limit of 1. -/
def exUi : UserInput :=
  ⟨none, some 1, fun _ => none, none, none, none, none, none, []⟩

/-- A concrete user input that sets the analysis-type selectbox to Cross
Tabulation (index 4 of its options). -/
def exUiCross : UserInput :=
  ⟨none, none, fun _ => none, none, some 4, none, none, none, []⟩

theorem rowPasses_iff (df : DataFrame) (filters : Filters) (row : List Cell) :
    rowPasses df filters row = true ↔
      ∀ p ∈ filters, ∀ v, p.2 = some v → cellInRow df row p.1 = some v := by
  unfold rowPasses
  rw [List.all_eq_true]
  constructor
  · intro h p hp v hv
    have hpv := h p hp
    rw [hv] at hpv
    simpa using hpv
  · intro h p hp
    cases hpv : p.2 with
    | none => simp [hpv]
    | some v => simpa [hpv] using h p hp v hpv

/-- C1: a row belongs to the filtered view produced by `apply_filters` iff
it is a row of the loaded table and, for every column whose filter value is
not `none`, its cell in that column equals the chosen value; a `none`
filter imposes no constraint. -/
theorem apply_filters_exact (df : DataFrame) (filters : Filters) (row : List Cell) :
    row ∈ (apply_filters df filters).rows ↔
      row ∈ df.rows ∧
        ∀ p ∈ filters, ∀ v, p.2 = some v → cellInRow df row p.1 = some v := by
  unfold apply_filters
  rw [List.mem_filter, rowPasses_iff]

/-- Witness for C1 at a concrete table, filter dictionary and row. -/
theorem apply_filters_exact_witness :
    [Cell.num 1] ∈ (apply_filters ⟨["a"], [[Cell.num 1], [Cell.num 2]]⟩
        [("a", some (Cell.num 1))]).rows ↔
      [Cell.num 1] ∈ ([[Cell.num 1], [Cell.num 2]] : List (List Cell)) ∧
        ∀ p ∈ ([("a", some (Cell.num 1))] : Filters), ∀ v, p.2 = some v →
          cellInRow ⟨["a"], [[Cell.num 1], [Cell.num 2]]⟩ [Cell.num 1] p.1 = some v :=
  apply_filters_exact ⟨["a"], [[Cell.num 1], [Cell.num 2]]⟩
    [("a", some (Cell.num 1))] [Cell.num 1]

/-- C2: the filtered view keeps the column set of the loaded table
unchanged, and every one of its rows is a row of the loaded table. -/
theorem apply_filters_subset (df : DataFrame) (filters : Filters) :
    (apply_filters df filters).cols = df.cols ∧
      ∀ row ∈ (apply_filters df filters).rows, row ∈ df.rows := by
  refine ⟨rfl, fun row hrow => ?_⟩
  exact (List.mem_filter.mp hrow).1

/-- Witness for C2 at a concrete table and filter dictionary. -/
theorem apply_filters_subset_witness :
    (apply_filters ⟨["a"], [[Cell.num 1], [Cell.num 2]]⟩
        [("a", some (Cell.num 1))]).cols = ["a"] ∧
      [Cell.num 1] ∈ (apply_filters ⟨["a"], [[Cell.num 1], [Cell.num 2]]⟩
        [("a", some (Cell.num 1))]).rows ∧
      [Cell.num 1] ∈ ([[Cell.num 1], [Cell.num 2]] : List (List Cell)) := by
  refine ⟨(apply_filters_subset ⟨["a"], [[Cell.num 1], [Cell.num 2]]⟩
      [("a", some (Cell.num 1))]).1, ?_, ?_⟩
  · decide
  · exact (apply_filters_subset ⟨["a"], [[Cell.num 1], [Cell.num 2]]⟩
      [("a", some (Cell.num 1))]).2 [Cell.num 1] (by decide)

/-- C9: a column gets a sidebar filter entry iff it is a column of the
loaded table with fewer than 100 unique values, and any value stored for it
is drawn from the selectbox options `None` followed by the column's unique
values. -/
theorem buildFilters_iff (df : DataFrame) (fc : String → Option Nat) (c : String) :
    ((∃ v, (c, v) ∈ buildFilters df fc) ↔
      c ∈ df.cols ∧ (uniqueVals df c).length < 100) ∧
    ∀ v, (c, v) ∈ buildFilters df fc → v ∈ filterOptions df c := by
  constructor
  · constructor
    · rintro ⟨v, hv⟩
      rw [buildFilters, List.mem_filterMap] at hv
      obtain ⟨a, ha, hif⟩ := hv
      by_cases hlen : (uniqueVals df a).length < 100
      · rw [if_pos hlen] at hif
        have h1 : a = c := congrArg Prod.fst (Option.some.inj hif)
        rw [← h1]
        exact ⟨ha, hlen⟩
      · rw [if_neg hlen] at hif
        cases hif
    · rintro ⟨hc, hlen⟩
      refine ⟨chosenFilterVal df fc c, ?_⟩
      rw [buildFilters, List.mem_filterMap]
      exact ⟨c, hc, by rw [if_pos hlen]⟩
  · intro v hv
    rw [buildFilters, List.mem_filterMap] at hv
    obtain ⟨a, ha, hif⟩ := hv
    by_cases hlen : (uniqueVals df a).length < 100
    · rw [if_pos hlen] at hif
      have hpair := Option.some.inj hif
      have h1 : a = c := congrArg Prod.fst hpair
      have h2 : chosenFilterVal df fc a = v := congrArg Prod.snd hpair
      rw [← h2, h1]
      unfold chosenFilterVal
      by_cases hidx : (fc c).getD 0 < (filterOptions df c).length
      · rw [List.getD_eq_getElem _ _ hidx]
        exact List.getElem_mem hidx
      · rw [List.getD_eq_default _ _ (Nat.le_of_not_lt hidx)]
        exact List.mem_cons_self _ _
    · rw [if_neg hlen] at hif
      cases hif

/-- Witness for C9 at a concrete table: column "a" has one unique value so
it is offered a filter whose stored value is among the options. -/
theorem buildFilters_iff_witness :
    ("a" ∈ (⟨["a"], [[Cell.num 1]]⟩ : DataFrame).cols ∧
      (uniqueVals ⟨["a"], [[Cell.num 1]]⟩ "a").length < 100) ∧
    (∃ v, ("a", v) ∈ buildFilters ⟨["a"], [[Cell.num 1]]⟩ (fun _ => none)) ∧
    ((("a", (none : Option Cell)) ∈ buildFilters ⟨["a"], [[Cell.num 1]]⟩
        (fun _ => none)) →
      (none : Option Cell) ∈ filterOptions ⟨["a"], [[Cell.num 1]]⟩ "a") := by
  refine ⟨⟨by decide, by decide⟩, ?_, ?_⟩
  · exact (buildFilters_iff ⟨["a"], [[Cell.num 1]]⟩ (fun _ => none) "a").1.mpr
      ⟨by decide, by decide⟩
  · exact fun h =>
      (buildFilters_iff ⟨["a"], [[Cell.num 1]]⟩ (fun _ => none) "a").2 none h

/-- C5: `display_column_summary` renders exactly one chart; it is the
30-bin histogram with box-plot marginal exactly when the column dtype is
numeric, and the histogram colored by the column exactly otherwise. -/
theorem display_column_summary_branches (cs : DataFrame → String → ColSummary)
    (df : DataFrame) (column : String) :
    (chartsOf (display_column_summary cs df column)).length = 1 ∧
    (Chart.histogramBox column 30 (String.append "Distribution of " column) ∈
        chartsOf (display_column_summary cs df column) ↔
      is_numeric_dtype df column = true) ∧
    (Chart.histogramColor column column
        (String.append "Distribution of " column) ∈
        chartsOf (display_column_summary cs df column) ↔
      is_numeric_dtype df column = false) := by
  by_cases h : is_numeric_dtype df column = true
  · refine ⟨?_, ?_, ?_⟩ <;> simp [display_column_summary, chartsOf, h]
  · rw [Bool.not_eq_true] at h
    refine ⟨?_, ?_, ?_⟩ <;> simp [display_column_summary, chartsOf, h]

/-- Witness for C5 at a concrete numeric column. -/
theorem display_column_summary_branches_witness :
    (chartsOf (display_column_summary exCs ⟨["a"], [[Cell.num 1]]⟩ "a")).length = 1 ∧
    (Chart.histogramBox "a" 30 (String.append "Distribution of " "a") ∈
        chartsOf (display_column_summary exCs ⟨["a"], [[Cell.num 1]]⟩ "a") ↔
      is_numeric_dtype ⟨["a"], [[Cell.num 1]]⟩ "a" = true) ∧
    (Chart.histogramColor "a" "a" (String.append "Distribution of " "a") ∈
        chartsOf (display_column_summary exCs ⟨["a"], [[Cell.num 1]]⟩ "a") ↔
      is_numeric_dtype ⟨["a"], [[Cell.num 1]]⟩ "a" = false) :=
  display_column_summary_branches exCs ⟨["a"], [[Cell.num 1]]⟩ "a"

/-- C8: when the first import of plotly.express raises
`ModuleNotFoundError`, the module pip-installs plotly in a subprocess and
imports plotly.express again; when the first import succeeds, no
installation is attempted. -/
theorem plotlyImportFallback_spec :
    plotlyImportFallback ImportOutcome.moduleNotFoundError =
      [SetupAction.importPlotlyExpress, SetupAction.pipInstall "plotly",
        SetupAction.importPlotlyExpress] ∧
    plotlyImportFallback ImportOutcome.ok = [SetupAction.importPlotlyExpress] ∧
    (plotlyImportFallback ImportOutcome.ok).countP SetupAction.isInstall = 0 := by
  refine ⟨rfl, rfl, rfl⟩

/-- C10: with the analysis-type selectbox on Cross Tabulation, the
analysis tab renders exactly the heading material — header, intro, the
type selectbox, the option's subheader, description and separator — with
an empty dispatch: no analysis call, no chart; every other analysis option
dispatches at least one column selector or analysis call. -/
theorem crossTabulation_renders_nothing (df : DataFrame) (ui : UserInput)
    (hsel : selectbox analysisOptions ui.analysisChoice =
      some AnalysisOption.crossTabulation) :
    handle_data_analysis_tab df ui =
      [RenderItem.header "Data Analysis", RenderItem.write analysisIntro,
       RenderItem.selectW "Select an Analysis Type"
         (analysisOptions.map analysisOptionLabel),
       RenderItem.subheader "Cross Tabulation",
       RenderItem.write (String.append "Description: "
         "Analyze relationships between categorical variables."),
       RenderItem.markdown "---"] ∧
    analysisDispatch df ui AnalysisOption.crossTabulation = [] ∧
    (handle_data_analysis_tab df ui).countP isAnalysisCallItem = 0 ∧
    chartsOf (handle_data_analysis_tab df ui) = [] ∧
    ∀ opt, opt ≠ AnalysisOption.crossTabulation →
      1 ≤ (analysisDispatch df ui opt).countP isAnalysisWidget := by
  have h1 : handle_data_analysis_tab df ui =
      [RenderItem.header "Data Analysis", RenderItem.write analysisIntro,
       RenderItem.selectW "Select an Analysis Type"
         (analysisOptions.map analysisOptionLabel),
       RenderItem.subheader "Cross Tabulation",
       RenderItem.write (String.append "Description: "
         "Analyze relationships between categorical variables."),
       RenderItem.markdown "---"] := by
    unfold handle_data_analysis_tab
    rw [hsel]
    rfl
  refine ⟨h1, rfl, ?_, ?_, ?_⟩
  · rw [h1]; rfl
  · rw [h1]; rfl
  · intro opt hne
    cases opt with
    | univariate => simp [analysisDispatch, List.countP_cons, isAnalysisWidget]
    | bivariate => simp [analysisDispatch, List.countP_cons, isAnalysisWidget]
    | multivariate => simp [analysisDispatch, List.countP_cons, isAnalysisWidget]
    | correlation => simp [analysisDispatch, List.countP_cons, isAnalysisWidget]
    | crossTabulation => exact absurd rfl hne

/-- Witness for C10 at a concrete table and the user input that selects
Cross Tabulation. -/
theorem crossTabulation_renders_nothing_witness :
    handle_data_analysis_tab ⟨["a"], []⟩ exUiCross =
      [RenderItem.header "Data Analysis", RenderItem.write analysisIntro,
       RenderItem.selectW "Select an Analysis Type"
         (analysisOptions.map analysisOptionLabel),
       RenderItem.subheader "Cross Tabulation",
       RenderItem.write (String.append "Description: "
         "Analyze relationships between categorical variables."),
       RenderItem.markdown "---"] ∧
    analysisDispatch ⟨["a"], []⟩ exUiCross AnalysisOption.crossTabulation = [] ∧
    (handle_data_analysis_tab ⟨["a"], []⟩ exUiCross).countP isAnalysisCallItem = 0 ∧
    chartsOf (handle_data_analysis_tab ⟨["a"], []⟩ exUiCross) = [] ∧
    ∀ opt, opt ≠ AnalysisOption.crossTabulation →
      1 ≤ (analysisDispatch ⟨["a"], []⟩ exUiCross opt).countP isAnalysisWidget :=
  crossTabulation_renders_nothing ⟨["a"], []⟩ exUiCross rfl

/-- C4: with an empty list of Dataset records, `main` writes exactly the
message "No datasets available. Please upload a dataset first." and
returns: the outcome is the bare message, not a rendered page. -/
theorem main_no_datasets (fs : String → DataFrame) (gs : DataFrame → Summary)
    (ds : DataFrame → DataFrame) (cs : DataFrame → String → ColSummary)
    (ui : UserInput) :
    main [] fs gs ds cs ui = MainResult.message noDatasetsMsg ∧
    noDatasetsMsg = "No datasets available. Please upload a dataset first." :=
  ⟨rfl, rfl⟩

theorem analysisDispatch_calls_df (df : DataFrame) (ui : UserInput)
    (opt : AnalysisOption) (a : AnalysisCall) :
    RenderItem.analysisCall a ∈ analysisDispatch df ui opt →
      AnalysisCall.df a = df := by
  intro h
  cases opt with
  | univariate =>
    simp only [analysisDispatch, List.mem_cons] at h
    rcases h with h | h
    · simp at h
    · rcases hc : selectbox df.cols ui.uniChoice with _ | c
      · rw [hc] at h; simp at h
      · rw [hc] at h
        rcases eq_or_ne c "" with hc2 | hc2
        · simp [hc2] at h
        · simp [hc2] at h
          subst h
          rfl
  | bivariate =>
    simp only [analysisDispatch, List.cons_append, List.nil_append,
      List.mem_cons] at h
    rcases h with h | h | h
    · simp at h
    · simp at h
    · rcases hx : selectbox df.cols ui.biXChoice with _ | x
      · rw [hx] at h; simp at h
      · rcases hy : selectbox df.cols ui.biYChoice with _ | y
        · rw [hx, hy] at h; simp at h
        · rw [hx, hy] at h
          rcases eq_or_ne x "" with hx2 | hx2
          · simp [hx2] at h
          · rcases eq_or_ne y "" with hy2 | hy2
            · simp [hx2, hy2] at h
            · simp [hx2, hy2] at h
              subst h
              rfl
  | multivariate =>
    simp only [analysisDispatch, List.mem_cons] at h
    rcases h with h | h
    · simp at h
    · by_cases hsel : multiselect df.cols ui.multiChoice ≠ []
      · simp only [if_pos hsel] at h
        simp at h
        subst h
        rfl
      · rw [not_ne_iff] at hsel
        simp [hsel] at h
  | correlation =>
    simp only [analysisDispatch, List.mem_singleton] at h
    simp at h
    subst h
    rfl
  | crossTabulation => simp [analysisDispatch] at h

theorem handle_analysis_calls_df (df : DataFrame) (ui : UserInput)
    (a : AnalysisCall) :
    RenderItem.analysisCall a ∈ handle_data_analysis_tab df ui →
      AnalysisCall.df a = df := by
  intro h
  unfold handle_data_analysis_tab at h
  rcases hs : selectbox analysisOptions ui.analysisChoice with _ | opt
  · rw [hs] at h; simp at h
  · rw [hs] at h
    simp only [List.cons_append, List.nil_append, List.mem_cons] at h
    rcases h with h | h | h | h | h | h | h
    · simp at h
    · simp at h
    · simp at h
    · simp at h
    · simp at h
    · simp at h
    · exact analysisDispatch_calls_df df ui opt a h

/-- C3: with datasets present and a dataset selected, `main` queries the
database for the first Dataset record whose name equals the selection,
loads the file at that record's filepath with the row limit, applies the
sidebar filters to the loaded table, and renders the summary tab, the
analysis tab and the data view from the filtered table; every analysis
helper the analysis tab invokes receives exactly that filtered table. -/
theorem main_pipeline (db : List Dataset) (fs : String → DataFrame)
    (gs : DataFrame → Summary) (ds : DataFrame → DataFrame)
    (cs : DataFrame → String → ColSummary) (ui : UserInput)
    (nm : String) (sel : Dataset)
    (hsel : selectbox (db.map Dataset.name) ui.datasetChoice = some nm)
    (hne : nm ≠ "")
    (hfind : queryFirstByName db nm = some sel) :
    main db fs gs ds cs ui = MainResult.page
      { datasetName := nm
        dataLimit := numberInput 1 1000 ui.limitValue
        loaded := selectedDataOf fs sel ui
        filters := filtersOf fs sel ui
        filtered := filteredDataOf fs sel ui
        summaryTab := handle_data_summary_tab gs ds cs
          (filteredDataOf fs sel ui) ui
        analysisTab := handle_data_analysis_tab (filteredDataOf fs sel ui) ui
        viewData := filteredDataOf fs sel ui } ∧
    ∀ a, RenderItem.analysisCall a ∈
        handle_data_analysis_tab (filteredDataOf fs sel ui) ui →
      AnalysisCall.df a = filteredDataOf fs sel ui := by
  have hdb : ¬ db = [] := by
    intro hd
    rw [hd] at hsel
    simp [selectbox] at hsel
  constructor
  · simp only [main, if_neg hdb, hsel, if_neg hne, hfind, selectedDataOf,
      filtersOf, filteredDataOf]
  · exact fun a h => handle_analysis_calls_df (filteredDataOf fs sel ui) ui a h

/-- Witness for C3 at a concrete database, file system and user input. -/
theorem main_pipeline_witness :
    main exDb exFs exGs exDs exCs exUi = MainResult.page
      { datasetName := "d"
        dataLimit := numberInput 1 1000 exUi.limitValue
        loaded := selectedDataOf exFs ⟨"d", "p"⟩ exUi
        filters := filtersOf exFs ⟨"d", "p"⟩ exUi
        filtered := filteredDataOf exFs ⟨"d", "p"⟩ exUi
        summaryTab := handle_data_summary_tab exGs exDs exCs
          (filteredDataOf exFs ⟨"d", "p"⟩ exUi) exUi
        analysisTab := handle_data_analysis_tab
          (filteredDataOf exFs ⟨"d", "p"⟩ exUi) exUi
        viewData := filteredDataOf exFs ⟨"d", "p"⟩ exUi } ∧
    ∀ a, RenderItem.analysisCall a ∈
        handle_data_analysis_tab (filteredDataOf exFs ⟨"d", "p"⟩ exUi) exUi →
      AnalysisCall.df a = filteredDataOf exFs ⟨"d", "p"⟩ exUi :=
  main_pipeline exDb exFs exGs exDs exCs exUi "d" ⟨"d", "p"⟩ rfl
    (by decide) rfl

theorem main_page_inv (db : List Dataset) (fs : String → DataFrame)
    (gs : DataFrame → Summary) (ds : DataFrame → DataFrame)
    (cs : DataFrame → String → ColSummary) (ui : UserInput) (r : PageRender)
    (h : main db fs gs ds cs ui = MainResult.page r) :
    ∃ sel : Dataset,
      r.dataLimit = numberInput 1 1000 ui.limitValue ∧
      r.loaded = load_data fs sel.filepath (numberInput 1 1000 ui.limitValue) := by
  unfold main at h
  split at h
  · simp at h
  · split at h
    · simp at h
    · split at h
      · simp at h
      · split at h
        · simp at h
        · rename_i sel hf
          simp only [MainResult.page.injEq] at h
          refine ⟨sel, ?_, ?_⟩
          · rw [← h]
          · rw [← h]

/-- C6: whenever `main` renders a page, the row limit it passed to
`load_data` is the number-input value — at least 1, and 1000 when the user
entered nothing — and the loaded working table has at most that many
rows. -/
theorem main_row_limit (db : List Dataset) (fs : String → DataFrame)
    (gs : DataFrame → Summary) (ds : DataFrame → DataFrame)
    (cs : DataFrame → String → ColSummary) (ui : UserInput) (r : PageRender)
    (h : main db fs gs ds cs ui = MainResult.page r) :
    r.dataLimit = numberInput 1 1000 ui.limitValue ∧
    1 ≤ r.dataLimit ∧
    (ui.limitValue = none → r.dataLimit = 1000) ∧
    (∃ sel : Dataset, r.loaded = load_data fs sel.filepath r.dataLimit) ∧
    r.loaded.rows.length ≤ r.dataLimit := by
  obtain ⟨sel, hlim, hload⟩ := main_page_inv db fs gs ds cs ui r h
  refine ⟨hlim, ?_, ?_, ⟨sel, by rw [hload, hlim]⟩, ?_⟩
  · rw [hlim]
    cases hv : ui.limitValue with
    | none => simp [numberInput]
    | some v => simp [numberInput]
  · intro hnone
    rw [hlim, hnone]
    rfl
  · rw [hload, hlim]
    simp only [load_data, List.length_take]
    exact Nat.min_le_left _ _

/-- Witness for C6 at a concrete run where the user left the row-limit
input at its default. -/
theorem main_row_limit_witness :
    (pageOf (main exDb exFs exGs exDs exCs exUiCross)).dataLimit =
      numberInput 1 1000 exUiCross.limitValue ∧
    1 ≤ (pageOf (main exDb exFs exGs exDs exCs exUiCross)).dataLimit ∧
    (exUiCross.limitValue = none →
      (pageOf (main exDb exFs exGs exDs exCs exUiCross)).dataLimit = 1000) ∧
    (∃ sel : Dataset,
      (pageOf (main exDb exFs exGs exDs exCs exUiCross)).loaded =
        load_data exFs sel.filepath
          (pageOf (main exDb exFs exGs exDs exCs exUiCross)).dataLimit) ∧
    (pageOf (main exDb exFs exGs exDs exCs exUiCross)).loaded.rows.length ≤
      (pageOf (main exDb exFs exGs exDs exCs exUiCross)).dataLimit :=
  main_row_limit exDb exFs exGs exDs exCs exUiCross
    (pageOf (main exDb exFs exGs exDs exCs exUiCross)) rfl

/-- C7: `main`, the summary tab and the analysis tab wrap no call in
exception handling; in the embedding where `load_data`, the statistics
helpers (`generate_summary`, `detailed_statistics`, `column_summary`), the
histogram plotting call and the four analysis-tab display helpers may
raise, an error raised by whichever of them the pipeline reaches is the
unchanged outcome of `main` — no retry, recovery or fallback. -/
theorem mainE_propagates (db : List Dataset)
    (loadE : String → Nat → Except String DataFrame)
    (gsE : DataFrame → Except String Summary)
    (dsE : DataFrame → Except String DataFrame)
    (csE : DataFrame → String → Except String ColSummary)
    (plotE : Chart → Except String Unit)
    (anaE : AnalysisCall → Except String Unit)
    (ui : UserInput) (nm : String) (sel : Dataset) (e : String)
    (hsel : selectbox (db.map Dataset.name) ui.datasetChoice = some nm)
    (hne : nm ≠ "")
    (hfind : queryFirstByName db nm = some sel) :
    (loadE sel.filepath (numberInput 1 1000 ui.limitValue) = .error e →
      mainE db loadE gsE dsE csE plotE anaE ui = .error e) ∧
    (∀ data, loadE sel.filepath (numberInput 1 1000 ui.limitValue) = .ok data →
      gsE (filteredOf data ui) = .error e →
      mainE db loadE gsE dsE csE plotE anaE ui = .error e) ∧
    (∀ data s, loadE sel.filepath (numberInput 1 1000 ui.limitValue) = .ok data →
      gsE (filteredOf data ui) = .ok s →
      dsE (filteredOf data ui) = .error e →
      mainE db loadE gsE dsE csE plotE anaE ui = .error e) ∧
    (∀ data s st c,
      loadE sel.filepath (numberInput 1 1000 ui.limitValue) = .ok data →
      gsE (filteredOf data ui) = .ok s →
      dsE (filteredOf data ui) = .ok st →
      selectbox (filteredOf data ui).cols ui.summaryColumnChoice = some c →
      c ≠ "" →
      csE (filteredOf data ui) c = .error e →
      mainE db loadE gsE dsE csE plotE anaE ui = .error e) ∧
    (∀ data s st c cS,
      loadE sel.filepath (numberInput 1 1000 ui.limitValue) = .ok data →
      gsE (filteredOf data ui) = .ok s →
      dsE (filteredOf data ui) = .ok st →
      selectbox (filteredOf data ui).cols ui.summaryColumnChoice = some c →
      c ≠ "" →
      csE (filteredOf data ui) c = .ok cS →
      plotE (if is_numeric_dtype (filteredOf data ui) c then
          Chart.histogramBox c 30 (String.append "Distribution of " c)
        else
          Chart.histogramColor c c (String.append "Distribution of " c)) =
        .error e →
      mainE db loadE gsE dsE csE plotE anaE ui = .error e) ∧
    (∀ data items c,
      loadE sel.filepath (numberInput 1 1000 ui.limitValue) = .ok data →
      handle_data_summary_tabE gsE dsE csE plotE (filteredOf data ui) ui =
        .ok items →
      selectbox analysisOptions ui.analysisChoice =
        some AnalysisOption.univariate →
      selectbox (filteredOf data ui).cols ui.uniChoice = some c →
      c ≠ "" →
      anaE (AnalysisCall.univariate (filteredOf data ui) c) = .error e →
      mainE db loadE gsE dsE csE plotE anaE ui = .error e) ∧
    (∀ data items x y,
      loadE sel.filepath (numberInput 1 1000 ui.limitValue) = .ok data →
      handle_data_summary_tabE gsE dsE csE plotE (filteredOf data ui) ui =
        .ok items →
      selectbox analysisOptions ui.analysisChoice =
        some AnalysisOption.bivariate →
      selectbox (filteredOf data ui).cols ui.biXChoice = some x →
      selectbox (filteredOf data ui).cols ui.biYChoice = some y →
      x ≠ "" ∧ y ≠ "" →
      anaE (AnalysisCall.bivariate (filteredOf data ui) x y) = .error e →
      mainE db loadE gsE dsE csE plotE anaE ui = .error e) ∧
    (∀ data items,
      loadE sel.filepath (numberInput 1 1000 ui.limitValue) = .ok data →
      handle_data_summary_tabE gsE dsE csE plotE (filteredOf data ui) ui =
        .ok items →
      selectbox analysisOptions ui.analysisChoice =
        some AnalysisOption.multivariate →
      multiselect (filteredOf data ui).cols ui.multiChoice ≠ [] →
      anaE (AnalysisCall.multivariate (filteredOf data ui)
        (multiselect (filteredOf data ui).cols ui.multiChoice)) = .error e →
      mainE db loadE gsE dsE csE plotE anaE ui = .error e) ∧
    (∀ data items,
      loadE sel.filepath (numberInput 1 1000 ui.limitValue) = .ok data →
      handle_data_summary_tabE gsE dsE csE plotE (filteredOf data ui) ui =
        .ok items →
      selectbox analysisOptions ui.analysisChoice =
        some AnalysisOption.correlation →
      anaE (AnalysisCall.correlation (filteredOf data ui)) = .error e →
      mainE db loadE gsE dsE csE plotE anaE ui = .error e) := by
  have hdb : ¬ db = [] := by
    intro hd
    rw [hd] at hsel
    simp [selectbox] at hsel
  refine ⟨?_, ?_, ?_, ?_, ?_, ?_, ?_, ?_, ?_⟩
  · intro hload
    simp only [mainE, if_neg hdb, hsel, if_neg hne, hfind, hload]
  · intro data hload hgs
    simp only [mainE, if_neg hdb, hsel, if_neg hne, hfind, hload,
      handle_data_summary_tabE, hgs]
  · intro data s hload hgs hds
    simp only [mainE, if_neg hdb, hsel, if_neg hne, hfind, hload,
      handle_data_summary_tabE, hgs, hds]
  · intro data s st c hload hgs hds hselc hcne hcs
    simp only [mainE, if_neg hdb, hsel, if_neg hne, hfind, hload,
      handle_data_summary_tabE, hgs, hds, hselc, if_pos hcne,
      display_column_summaryE, hcs]
  · intro data s st c cS hload hgs hds hselc hcne hcs hplot
    simp only [mainE, if_neg hdb, hsel, if_neg hne, hfind, hload,
      handle_data_summary_tabE, hgs, hds, hselc, if_pos hcne,
      display_column_summaryE, hcs, hplot]
  · intro data items c hload hsum hopt huc hcne hana
    simp only [mainE, if_neg hdb, hsel, if_neg hne, hfind, hload, hsum,
      handle_data_analysis_tabE, hopt, analysisDispatchE, huc,
      if_pos hcne, hana]
  · intro data items x y hload hsum hopt hx hy hxy hana
    simp only [mainE, if_neg hdb, hsel, if_neg hne, hfind, hload, hsum,
      handle_data_analysis_tabE, hopt, analysisDispatchE, hx, hy,
      if_pos hxy, hana]
  · intro data items hload hsum hopt hms hana
    simp only [mainE, if_neg hdb, hsel, if_neg hne, hfind, hload, hsum,
      handle_data_analysis_tabE, hopt, analysisDispatchE, if_pos hms, hana]
  · intro data items hload hsum hopt hana
    simp only [mainE, if_neg hdb, hsel, if_neg hne, hfind, hload, hsum,
      handle_data_analysis_tabE, hopt, analysisDispatchE, hana]

/-- Witness for C7: with a concrete failing `load_data` the error "boom"
is `main`'s outcome, and with a concrete failing plotting call the error
"plotboom" is `main`'s outcome. -/
theorem mainE_propagates_witness :
    mainE exDb (fun _ _ => Except.error "boom")
      (fun _ => Except.ok (⟨0, 0, 0, 0, 0⟩ : Summary))
      (fun df => Except.ok df)
      (fun _ _ => Except.ok (⟨"", "", "", "", "", "", "", "", ""⟩ : ColSummary))
      (fun _ => Except.ok ()) (fun _ => Except.ok ()) exUi =
      Except.error "boom" ∧
    mainE exDb (fun _ _ => Except.ok (⟨["a"], [[Cell.num 1]]⟩ : DataFrame))
      (fun _ => Except.ok (⟨0, 0, 0, 0, 0⟩ : Summary))
      (fun df => Except.ok df)
      (fun _ _ => Except.ok (⟨"", "", "", "", "", "", "", "", ""⟩ : ColSummary))
      (fun _ => Except.error "plotboom") (fun _ => Except.ok ()) exUi =
      Except.error "plotboom" :=
  ⟨(mainE_propagates exDb (fun _ _ => Except.error "boom")
      (fun _ => Except.ok (⟨0, 0, 0, 0, 0⟩ : Summary))
      (fun df => Except.ok df)
      (fun _ _ => Except.ok (⟨"", "", "", "", "", "", "", "", ""⟩ : ColSummary))
      (fun _ => Except.ok ()) (fun _ => Except.ok ())
      exUi "d" ⟨"d", "p"⟩ "boom" rfl (by decide) rfl).1 rfl,
   (mainE_propagates exDb
      (fun _ _ => Except.ok (⟨["a"], [[Cell.num 1]]⟩ : DataFrame))
      (fun _ => Except.ok (⟨0, 0, 0, 0, 0⟩ : Summary))
      (fun df => Except.ok df)
      (fun _ _ => Except.ok (⟨"", "", "", "", "", "", "", "", ""⟩ : ColSummary))
      (fun _ => Except.error "plotboom") (fun _ => Except.ok ())
      exUi "d" ⟨"d", "p"⟩ "plotboom" rfl (by decide) rfl).2.2.2.2.1
     ⟨["a"], [[Cell.num 1]]⟩ ⟨0, 0, 0, 0, 0⟩ ⟨["a"], [[Cell.num 1]]⟩ "a"
     ⟨"", "", "", "", "", "", "", "", ""⟩ rfl rfl rfl rfl (by decide) rfl rfl⟩

end AnalytiQ
